import Mathlib

/-
  Verification development for the keepTrace traceback-cleaning engine
  (src/keepTrace/__init__.py).

  Shallow embedding: the Python object graph is modelled as a finite heap
  (a list of objects, object identity `id(obj)` = list index).  The cleaner
  `_Cleaner` is modelled by state-passing functions over an explicit state
  (`seen` memo table + an arena of mock dictionaries, so that the in-place
  mutation of mock `dct`s after memo pre-registration is observable and
  identity sharing of mock instances is an arena index).  A `fuel` argument
  models the Python recursion budget: running out of fuel is the model of
  `RecursionError` raised on call entry, and is caught exactly where Python
  catches it.  All fallible operations return `Except (String × St)`,
  the error carrying the message and the state at the raise point, since
  Python mutations performed before an exception persist.
-/

namespace KeepTrace

/-- Scalar values whose types pickle handles natively (`STD_TYPES` after the
    earlier dict/sequence/function branches have been peeled off). -/
inductive PyLit where
  | int (n : Int)
  | str (s : String)
  | bool (b : Bool)
  | none
  deriving DecidableEq, Repr

/-- Original container kind, preserved by the sequence branch (`SEQ_TYPES`). -/
inductive SeqKind where
  | list
  | tuple
  | set
  deriving DecidableEq, Repr

/-- One link of the exception chain (`types.TracebackType`).  Scalar
    attributes model the `tb_`-prefixed results of `dir(trace)`. -/
structure TracebackObj where
  tb_frame : Nat
  tb_lasti : Int
  tb_lineno : Int
  tb_next : Nat
  deriving DecidableEq, Repr

/-- One execution frame (`types.FrameType`).  `f_globals`/`f_locals` are the
    string-keyed variable mappings the frame branch iterates directly. -/
structure FrameObj where
  f_back : Nat
  f_code : Nat
  f_globals : List (String × Nat)
  f_lasti : Int
  f_lineno : Int
  f_locals : List (String × Nat)
  f_trace : Nat
  deriving DecidableEq, Repr

/-- A compiled-routine descriptor (`types.CodeType`); scalar `co_` attributes
    are modelled by a representative subset. -/
structure CodeObj where
  co_argcount : Int
  co_consts : Nat
  co_filename : String
  co_name : String
  deriving DecidableEq, Repr

/-- The category of a heap object, mirroring the type tests the cleaner
    performs (`TRACEBACK_TYPES`, `dict`, `SEQ_TYPES`, `FUNC_TYPES`,
    `STD_TYPES`, `types.ModuleType`, and the introspection fallback). -/
inductive ObjKind where
  | traceback (t : TracebackObj)
  | frame (f : FrameObj)
  | code (c : CodeObj)
  | dict (entries : List (Nat × Nat))
  | seq (k : SeqKind) (elems : List Nat)
  | func
  | std (v : PyLit)
  | module (name : String) (file : Option String)
  | other (attrs : List (String × Nat)) (introspectFails : Bool)
  deriving Repr

/-- A heap object.  `reprE` models `repr(obj)` (`.error` = `__repr__`
    raised); `pickled` models the optional external pickler's result on this
    object (`Option.none` = the pickler raised). -/
structure Obj where
  kind : ObjKind
  reprE : Except String String
  pickled : Option String
  deriving Repr

/-- The sanitized representation a clean pass produces.  Mocks
    (`_call(_mock, dct)`) are arena-allocated so that a shared memo entry is
    one shared instance, and so that the in-place population of their `dct`
    after pre-registration is modelled faithfully.  `raw` is an uncleaned
    object reference captured by a bare `getattr` and left in the dict. -/
inductive Rep where
  | literal (s : String)
  | std (v : PyLit)
  | raw (objId : Nat)
  | stub
  | importRef (name : String)
  | fromImport (mod : String) (attr : String)
  | objectType
  | restored (data : String) (rep : String)
  | dict (entries : List (Rep × Rep))
  | seqc (k : SeqKind) (elems : List Rep)
  | mock (idx : Nat)
  deriving Repr

/-- The mutable dictionary of one mock object. -/
abbrev Dct := List (String × Rep)

/-- The per-pass cleaner state: the identity memo `self.seen` and the arena
    of mock dictionaries allocated so far (index = allocation order). -/
structure St where
  seen : List (Nat × Rep)
  arena : List Dct
  deriving Repr

/-- A cleaner configuration: the heap, `self.limit` (already defaulted), and
    whether an external pickler was supplied. -/
structure Ctx where
  heap : List Obj
  limit : Int
  usePickler : Bool
  deriving Repr

/-- The empty starting state of one top-level clean invocation. -/
def st0 : St := { seen := [], arena := [] }

/-- Dictionary write: update the value in place when the key is present
    (Python `d[k] = v` on an existing key), else append. -/
def alSet (l : List (Nat × Rep)) (k : Nat) (v : Rep) : List (Nat × Rep) :=
  if l.any (fun p => p.1 == k) then
    l.map (fun p => if p.1 == k then (k, v) else p)
  else
    l ++ [(k, v)]

/-- String-keyed dictionary write, same semantics as `alSet`. -/
def dctSet (d : Dct) (k : String) (v : Rep) : Dct :=
  if d.any (fun p => p.1 == k) then
    d.map (fun p => if p.1 == k then (k, v) else p)
  else
    d ++ [(k, v)]

/-- Memo lookup `obj_id in self.seen` / `self.seen[obj_id]`. -/
def seenGet (st : St) (k : Nat) : Option Rep :=
  (st.seen.find? (fun p => p.1 == k)).map (fun p => p.2)

/-- Memo write `self.seen[obj_id] = r`. -/
def seenSet (st : St) (k : Nat) (v : Rep) : St :=
  { st with seen := alSet st.seen k v }

/-- Heap dereference; `id(obj)` is the heap index. -/
def lookupObj (ctx : Ctx) (i : Nat) : Option Obj :=
  ctx.heap.get? i

/-- In-place write of one key of the mock dictionary at arena index `idx`. -/
def arenaSetKey (st : St) (idx : Nat) (k : String) (v : Rep) : St :=
  { st with arena := st.arena.set idx (dctSet (st.arena.getD idx []) k v) }

/-- Write to the previous loop node's dictionary (`last_trace[k] = v` /
    `last_frame[k] = v`); writes to the initial dummy `{}` are discarded. -/
def setPrevKey (st : St) (prev : Option Nat) (k : String) (v : Rep) : St :=
  match prev with
  | Option.none => st
  | some i => arenaSetKey st i k v

/-- Python falsiness of a chain pointer (`if not trace:` / `while frame:`):
    the chain pointers are either live objects (truthy) or `None`. -/
def isPyNone (ctx : Ctx) (i : Nat) : Bool :=
  match lookupObj ctx i with
  | some o =>
    match o.kind with
    | .std .none => true
    | _ => false
  | Option.none => false

/-- True for the three `TRACEBACK_TYPES`. -/
def isTracebackType (k : ObjKind) : Bool :=
  match k with
  | .traceback _ => true
  | .frame _ => true
  | .code _ => true
  | _ => false

/-- Model of `os.path.dirname(types.__file__)`, the standard-library
    directory prefix used by the module branch. -/
def stdlibDir : String := "/usr/lib/python3.8"

/-- Python's `str.startswith`, via a structural character-list prefix test
    (semantically `String.startsWith`). -/
def pyStartsWith (s pre : String) : Bool := pre.data.isPrefixOf s.data

/-- Model of `os.path.abspath` restricted to what the claims need: absolute
    paths pass through, relative ones are anchored at the working directory
    (normalization is irrelevant to every claim). -/
def abspath (s : String) : String :=
  if pyStartsWith s "/" then s else "/cwd/" ++ s

/-- The message of the `RecursionError` the model raises when `fuel` (the
    recursion budget) is exhausted on call entry. -/
def recMsg : String := "maximum recursion depth exceeded"

mutual

/-- Model of `_Cleaner.clean` (lines 158-181).  Decrements `depth`, returns
    the memo entry on an identity hit, otherwise runs the `try` body
    (`clean_body`), converting any internal failure into the textual
    `"Failed to serialize object: %s"` representation, which is also
    memoized.  Fuel 0 is a `RecursionError` raised on entry, before the
    `try`, hence propagated to the caller. -/
def clean (fuel : Nat) (ctx : Ctx) (st : St) (objId : Nat) (depth : Int) :
    Except (String × St) (Rep × St) :=
  match fuel with
  | 0 => .error (recMsg, st)
  | m + 1 =>
    let depth := depth - 1
    match seenGet st objId with
    | some r => .ok (r, st)
    | Option.none =>
      match clean_body m ctx st objId depth with
      | .ok res => .ok res
      | .error (e, st2) =>
        let msg := "Failed to serialize object: " ++ e
        .ok (.literal msg, seenSet st2 objId (.literal msg))

termination_by structural fuel

/-- The body of `clean`'s `try` block (lines 165-178, `depth` already
    decremented): depth-exhaustion check, then dispatch to the traceback
    branch, the optional external pickler, or the fallback mocker. -/
def clean_body (fuel : Nat) (ctx : Ctx) (st : St) (objId : Nat) (depth : Int) :
    Except (String × St) (Rep × St) :=
  match fuel with
  | 0 => .error (recMsg, st)
  | m + 1 =>
    match lookupObj ctx objId with
    | Option.none => .error ("invalid object reference", st)
    | some obj =>
      if depth = -1 then
        match obj.reprE with
        | .error e => .error (e, st)
        | .ok r => .ok (.literal r, seenSet st objId (.literal r))
      else if isTracebackType obj.kind then
        clean_traceback_types m ctx st objId obj depth
      else if ctx.usePickler then
        match obj.pickled, obj.reprE with
        | some data, .ok r =>
          .ok (.restored data r, seenSet st objId (.restored data r))
        | _, _ => clean_fallback m ctx st objId obj depth
      else
        clean_fallback m ctx st objId obj depth

termination_by structural fuel

/-- Model of `_Cleaner.clean_traceback_types` (lines 183-232): dispatch on
    which of the three traceback types the object is. -/
def clean_traceback_types (fuel : Nat) (ctx : Ctx) (st : St) (objId : Nat)
    (obj : Obj) (depth : Int) : Except (String × St) (Rep × St) :=
  match fuel with
  | 0 => .error (recMsg, st)
  | m + 1 =>
    match obj.kind with
    | .traceback _ =>
      match traceLoop m ctx st ctx.limit.toNat objId Option.none depth with
      | .error es => .error es
      | .ok st2 =>
        match seenGet st2 objId with
        | some r => .ok (r, st2)
        | Option.none => .error ("KeyError: id(obj)", st2)
    | .frame _ =>
      match frameLoop m ctx st objId Option.none depth with
      | .error es => .error es
      | .ok st2 =>
        match seenGet st2 objId with
        | some r => .ok (r, st2)
        | Option.none => .error ("KeyError: id(obj)", st2)
    | .code c =>
      match obj.reprE with
      | .error e => .error (e, st)
      | .ok rstr =>
        let idx := st.arena.length
        let st := { st with arena := st.arena ++
          [[("_repr", Rep.literal rstr),
            ("_mock", Rep.fromImport "types" "CodeType")]] }
        let st := seenSet st objId (.mock idx)
        let st := arenaSetKey st idx "co_argcount" (.std (.int c.co_argcount))
        let st := arenaSetKey st idx "co_consts" (.raw c.co_consts)
        let st := arenaSetKey st idx "co_filename" (.std (.str c.co_filename))
        let st := arenaSetKey st idx "co_name" (.std (.str c.co_name))
        match clean m ctx st c.co_consts (depth + 2) with
        | .error es => .error es
        | .ok (kr, st) =>
          let st := arenaSetKey st idx "co_consts" kr
          let st := arenaSetKey st idx "co_filename"
            (.std (.str (abspath c.co_filename)))
          .ok (.mock idx, st)
    | _ => .error ("unexpected type", st)

termination_by structural fuel

/-- The traceback-chain walk (lines 188-203): a `for _ in xrange(self.limit)`
    loop over `counter`, with the unconditional `last_trace["tb_next"] = None`
    terminator of line 203 applied at every exit. -/
def traceLoop (fuel : Nat) (ctx : Ctx) (st : St) (counter : Nat)
    (traceId : Nat) (prev : Option Nat) (depth : Int) :
    Except (String × St) St :=
  match fuel with
  | 0 => .error (recMsg, st)
  | m + 1 =>
    match counter with
    | 0 => .ok (setPrevKey st prev "tb_next" (.std .none))
    | c + 1 =>
      if isPyNone ctx traceId then
        .ok (setPrevKey st prev "tb_next" (.std .none))
      else
        match seenGet st traceId with
        | some r =>
          let st := setPrevKey st prev "tb_next" r
          .ok (setPrevKey st prev "tb_next" (.std .none))
        | Option.none =>
          match lookupObj ctx traceId with
          | Option.none => .error ("invalid object reference", st)
          | some obj =>
            match obj.reprE with
            | .error e => .error (e, st)
            | .ok rstr =>
              let idx := st.arena.length
              let st := { st with arena := st.arena ++
                [[("_repr", Rep.literal rstr),
                  ("_mock", Rep.fromImport "types" "TracebackType")]] }
              let st := seenSet st traceId (.mock idx)
              let st := setPrevKey st prev "tb_next" (.mock idx)
              match obj.kind with
              | .traceback t =>
                let st := arenaSetKey st idx "tb_frame" (.raw t.tb_frame)
                let st := arenaSetKey st idx "tb_lasti" (.std (.int t.tb_lasti))
                let st := arenaSetKey st idx "tb_lineno" (.std (.int t.tb_lineno))
                let st := arenaSetKey st idx "tb_next" (.raw t.tb_next)
                match clean m ctx st t.tb_frame (depth + 1) with
                | .error es => .error es
                | .ok (fr, st) =>
                  let st := arenaSetKey st idx "tb_frame" fr
                  traceLoop m ctx st c t.tb_next (some idx) depth
              | _ => .error ("object has no attribute tb_frame", st)

termination_by structural fuel

/-- The frame-chain walk (lines 206-224): `while frame:` with no iteration
    limit; stops only at chain end (falsy `f_back`) or on a memo hit, in
    which case the previous node is linked to the memo entry.  Unlike the
    traceback walk there is no post-loop terminator write.  (In the model
    the loop consumes fuel per iteration as its termination device.) -/
def frameLoop (fuel : Nat) (ctx : Ctx) (st : St) (frameId : Nat)
    (prev : Option Nat) (depth : Int) : Except (String × St) St :=
  match fuel with
  | 0 => .error (recMsg, st)
  | m + 1 =>
    if isPyNone ctx frameId then
      .ok st
    else
      match seenGet st frameId with
      | some r => .ok (setPrevKey st prev "f_back" r)
      | Option.none =>
        match lookupObj ctx frameId with
        | Option.none => .error ("invalid object reference", st)
        | some obj =>
          match obj.reprE with
          | .error e => .error (e, st)
          | .ok rstr =>
            let idx := st.arena.length
            let st := { st with arena := st.arena ++
              [[("_repr", Rep.literal rstr),
                ("_mock", Rep.fromImport "types" "FrameType")]] }
            let st := seenSet st frameId (.mock idx)
            let st := setPrevKey st prev "f_back" (.mock idx)
            match obj.kind with
            | .frame f =>
              let st := arenaSetKey st idx "f_back" (.raw f.f_back)
              let st := arenaSetKey st idx "f_lasti" (.std (.int f.f_lasti))
              let st := arenaSetKey st idx "f_lineno" (.std (.int f.f_lineno))
              let st := arenaSetKey st idx "f_builtins"
                (.fromImport "types" "__builtins__")
              match cleanStrPairs m ctx st
                  (f.f_globals.filter (fun p => !pyStartsWith p.1 "__")) depth with
              | .error es => .error es
              | .ok (g, st) =>
                let st := arenaSetKey st idx "f_globals" (.dict g)
                match cleanStrPairs m ctx st f.f_locals depth with
                | .error es => .error es
                | .ok (l, st) =>
                  let st := arenaSetKey st idx "f_locals" (.dict l)
                  match clean m ctx st f.f_trace depth with
                  | .error es => .error es
                  | .ok (tr, st) =>
                    let st := arenaSetKey st idx "f_trace" tr
                    match clean m ctx st f.f_code (depth + 1) with
                    | .error es => .error es
                    | .ok (cd, st) =>
                      let st := arenaSetKey st idx "f_code" cd
                      frameLoop m ctx st f.f_back (some idx) depth
            | _ => .error ("object has no attribute f_globals", st)

termination_by structural fuel

/-- Model of `_Cleaner.clean_fallback` (lines 234-259). -/
def clean_fallback (fuel : Nat) (ctx : Ctx) (st : St) (objId : Nat)
    (obj : Obj) (depth : Int) : Except (String × St) (Rep × St) :=
  match fuel with
  | 0 => .error (recMsg, st)
  | m + 1 =>
    match obj.kind with
    | .dict entries =>
      match cleanPairs m ctx st entries depth with
      | .error es => .error es
      | .ok (ps, st) => .ok (.dict ps, seenSet st objId (.dict ps))
    | .seq k elems =>
      match cleanList m ctx st elems depth with
      | .error es => .error es
      | .ok (rs, st) => .ok (.seqc k rs, seenSet st objId (.seqc k rs))
    | .func => .ok (.stub, seenSet st objId .stub)
    | .std v => .ok (.std v, seenSet st objId (.std v))
    | .module name file =>
      match file with
      | Option.none => .ok (.importRef name, seenSet st objId (.importRef name))
      | some f =>
        if pyStartsWith f stdlibDir then
          .ok (.importRef name, seenSet st objId (.importRef name))
        else
          match obj.reprE with
          | .error e => .error (e, st)
          | .ok r => .ok (.literal r, seenSet st objId (.literal r))
    | .other attrs iFails =>
      match obj.reprE with
      | .error e => .error (e, st)
      | .ok r =>
        let idx := st.arena.length
        let st := { st with arena := st.arena ++
          [[("_repr", Rep.literal r), ("_mock", Rep.objectType)]] }
        let st := seenSet st objId (.mock idx)
        if iFails then
          .ok (.literal r, seenSet st objId (.literal r))
        else
          match cleanAttrs m ctx st idx
              (attrs.filter (fun p => !pyStartsWith p.1 "__")) depth with
          | .ok st2 => .ok (.mock idx, st2)
          | .error (_, st2) => .ok (.literal r, seenSet st2 objId (.literal r))
    | .traceback _ => .error ("unexpected traceback type", st)
    | .frame _ => .error ("unexpected traceback type", st)
    | .code _ => .error ("unexpected traceback type", st)

termination_by structural fuel

/-- The dict-branch comprehension of line 239: clean each key, then its
    value, in insertion order; the memo entry for the dict itself is written
    only after the whole comprehension (no pre-registration). -/
def cleanPairs (fuel : Nat) (ctx : Ctx) (st : St) (entries : List (Nat × Nat))
    (depth : Int) : Except (String × St) (List (Rep × Rep) × St) :=
  match fuel with
  | 0 => .error (recMsg, st)
  | m + 1 =>
    match entries with
    | [] => .ok ([], st)
    | (k, v) :: rest =>
      match clean m ctx st k depth with
      | .error es => .error es
      | .ok (rk, st) =>
        match clean m ctx st v depth with
        | .error es => .error es
        | .ok (rv, st) =>
          match cleanPairs m ctx st rest depth with
          | .error es => .error es
          | .ok (tail, st) => .ok ((rk, rv) :: tail, st)

termination_by structural fuel

/-- The frame-variable comprehensions of lines 218-219: keys are the raw
    variable-name strings, only the values are cleaned. -/
def cleanStrPairs (fuel : Nat) (ctx : Ctx) (st : St)
    (entries : List (String × Nat)) (depth : Int) :
    Except (String × St) (List (Rep × Rep) × St) :=
  match fuel with
  | 0 => .error (recMsg, st)
  | m + 1 =>
    match entries with
    | [] => .ok ([], st)
    | (k, v) :: rest =>
      match clean m ctx st v depth with
      | .error es => .error es
      | .ok (rv, st) =>
        match cleanStrPairs m ctx st rest depth with
        | .error es => .error es
        | .ok (tail, st) => .ok ((.std (.str k), rv) :: tail, st)

termination_by structural fuel

/-- The sequence-branch generator of line 241. -/
def cleanList (fuel : Nat) (ctx : Ctx) (st : St) (elems : List Nat)
    (depth : Int) : Except (String × St) (List Rep × St) :=
  match fuel with
  | 0 => .error (recMsg, st)
  | m + 1 =>
    match elems with
    | [] => .ok ([], st)
    | e :: rest =>
      match clean m ctx st e depth with
      | .error es => .error es
      | .ok (r, st) =>
        match cleanList m ctx st rest depth with
        | .error es => .error es
        | .ok (tail, st) => .ok (r :: tail, st)

termination_by structural fuel

/-- The mock-branch attribute walk of line 256: clean each discoverable
    non-dunder attribute value, writing it into the mock's dict as computed,
    so the partial updates made before a failure persist. -/
def cleanAttrs (fuel : Nat) (ctx : Ctx) (st : St) (idx : Nat)
    (attrs : List (String × Nat)) (depth : Int) : Except (String × St) St :=
  match fuel with
  | 0 => .error (recMsg, st)
  | m + 1 =>
    match attrs with
    | [] => .ok st
    | (a, v) :: rest =>
      match clean m ctx st v depth with
      | .error es => .error es
      | .ok (r, st) =>
        let st := arenaSetKey st idx a r
        cleanAttrs m ctx st idx rest depth

termination_by structural fuel

end

/-- The error text of the reconstructed stub placeholder (a `UserWarning`
    in the source, lines 137-140). -/
def stubMessage : String :=
  "This is a stub function. The original was not serialized."

/-- Model of the reconstructed `_stub(*_, **__)` placeholder (lines
    137-140): whatever positional and keyword arguments it receives, it
    raises the same `UserWarning`. -/
def _stub (args : List Rep) (kwargs : List (String × Rep)) :
    Except String Rep :=
  .error stubMessage

/-- Model of `_Cleaner.__init__` line 155:
    `self.limit = limit or int(math.sqrt(sys.getrecursionlimit()))`.
    A falsy `limit` argument (absent, or the falsy integer 0) is replaced by
    the square-root default; `Nat.sqrt` is the exact floor square root that
    `int(math.sqrt(_))` computes on realistic recursion limits. -/
def cleanerLimit (limit : Option Int) (recursionLimit : Nat) : Int :=
  match limit with
  | Option.none => (Nat.sqrt recursionLimit : Int)
  | some l => if l = 0 then (Nat.sqrt recursionLimit : Int) else l

/-- A cleaner as `_Cleaner.__init__` builds it from its arguments, with the
    host recursion limit made explicit. -/
def mkCleaner (heap : List Obj) (usePickler : Bool) (limit : Option Int)
    (recursionLimit : Nat) : Ctx :=
  { heap := heap, limit := cleanerLimit limit recursionLimit,
    usePickler := usePickler }

/-- Lookup by key in a mock dictionary. -/
def dctGet (d : Dct) (k : String) : Option Rep :=
  (d.find? (fun p => p.1 == k)).map (fun p => p.2)

/-- Whether a mock dictionary spoofs `types.TracebackType`. -/
def isTraceMockD (d : Dct) : Bool :=
  match dctGet d "_mock" with
  | some (.fromImport m a) => m == "types" && a == "TracebackType"
  | _ => false

/-- Whether a mock dictionary spoofs `types.FrameType`. -/
def isFrameMockD (d : Dct) : Bool :=
  match dctGet d "_mock" with
  | some (.fromImport m a) => m == "types" && a == "FrameType"
  | _ => false

/-- Number of resolved traceback-link nodes in the output arena. -/
def countTraceMocks (st : St) : Nat :=
  st.arena.countP (fun d => isTraceMockD d)

/-- Number of resolved frame nodes in the output arena. -/
def countFrameMocks (st : St) : Nat :=
  st.arena.countP (fun d => isFrameMockD d)

/-- The arena index a representation points at, when it is a mock. -/
def Rep.mockIdx : Rep → Option Nat
  | .mock i => some i
  | _ => none

/-- The payload of a bare textual representation. -/
def Rep.litStr : Rep → Option String
  | .literal s => some s
  | _ => none

/-- Whether a representation is a bare textual one (a plain string). -/
def Rep.isLit : Rep → Bool
  | .literal _ => true
  | _ => false

/-- Whether a representation is the explicit `None` terminator. -/
def Rep.isStdNone : Rep → Bool
  | .std .none => true
  | _ => false

/-- The memo's key set, in insertion order. -/
def seenKeys (st : St) : List Nat :=
  st.seen.map (fun p => p.1)

/-- Short constructor for scalar heap objects. -/
def mkStd (v : PyLit) (r : String) : Obj :=
  { kind := .std v, reprE := .ok r, pickled := Option.none }

/-- Short constructor for non-scalar heap objects without a pickler result. -/
def mkObj (k : ObjKind) (r : String) : Obj :=
  { kind := k, reprE := .ok r, pickled := Option.none }

/-- Heap A: a cyclic three-link trace chain in which links 1 and 3 reference
    the identical frame object `F` (id 4), link 2 a second frame `G` (id 5),
    and link 3's `tb_next` points back at link 1. -/
def heapA : List Obj :=
  [ mkStd .none "None",                                            -- 0
    mkStd (.int 42) "42",                                          -- 1
    mkObj (.seq .tuple []) "()",                                   -- 2
    mkObj (.code { co_argcount := 0, co_consts := 2,
                   co_filename := "app.py", co_name := "fn" }) "<code fn>",  -- 3
    mkObj (.frame { f_back := 0, f_code := 3,
                    f_globals := [("x", 1), ("__secret", 1)], f_lasti := 4,
                    f_lineno := 14, f_locals := [("y", 1)], f_trace := 0 })
          "<frame F>",                                             -- 4
    mkObj (.frame { f_back := 0, f_code := 3, f_globals := [], f_lasti := 5,
                    f_lineno := 15, f_locals := [], f_trace := 0 })
          "<frame G>",                                             -- 5
    mkObj (.traceback { tb_frame := 4, tb_lasti := 0, tb_lineno := 10,
                        tb_next := 7 }) "<tb1>",                   -- 6
    mkObj (.traceback { tb_frame := 5, tb_lasti := 0, tb_lineno := 11,
                        tb_next := 8 }) "<tb2>",                   -- 7
    mkObj (.traceback { tb_frame := 4, tb_lasti := 0, tb_lineno := 12,
                        tb_next := 6 }) "<tb3>" ]                  -- 8

def ctxA : Ctx := { heap := heapA, limit := 10, usePickler := false }

/-- Heap B: a two-frame back-reference chain (frame A at id 4 calls into
    frame B at id 3), used with `limit = 1`. -/
def heapB : List Obj :=
  [ mkStd .none "None",                                            -- 0
    mkObj (.seq .tuple []) "()",                                   -- 1
    mkObj (.code { co_argcount := 0, co_consts := 1,
                   co_filename := "b.py", co_name := "g" }) "<code g>",      -- 2
    mkObj (.frame { f_back := 0, f_code := 2, f_globals := [], f_lasti := 0,
                    f_lineno := 3, f_locals := [], f_trace := 0 })
          "<frame B>",                                             -- 3
    mkObj (.frame { f_back := 3, f_code := 2, f_globals := [], f_lasti := 0,
                    f_lineno := 8, f_locals := [], f_trace := 0 })
          "<frame A>" ]                                            -- 4

def ctxB : Ctx := { heap := heapB, limit := 1, usePickler := false }

/-- Heap C: a single frame (id 4) whose descriptor's constant tuple (id 2)
    holds a fresh scalar (id 5), with one ordinary global, one
    double-underscore global and one local. -/
def heapC : List Obj :=
  [ mkStd .none "None",                                            -- 0
    mkStd (.int 42) "42",                                          -- 1
    mkObj (.seq .tuple [5]) "(43,)",                               -- 2
    mkObj (.code { co_argcount := 0, co_consts := 2,
                   co_filename := "mod.py", co_name := "fn" }) "<code fn>",  -- 3
    mkObj (.frame { f_back := 0, f_code := 3,
                    f_globals := [("g", 1), ("__hidden", 1)], f_lasti := 7,
                    f_lineno := 21, f_locals := [("y", 1)], f_trace := 0 })
          "<frame H>",                                             -- 4
    mkStd (.int 43) "43" ]                                         -- 5

def ctxC : Ctx := { heap := heapC, limit := 10, usePickler := false }

/-- Heap E: a bare compiled-routine descriptor (id 1) with an empty constant
    tuple (id 0), used to exercise `depth = -1`. -/
def heapE : List Obj :=
  [ mkObj (.seq .tuple []) "()",                                   -- 0
    mkObj (.code { co_argcount := 0, co_consts := 0,
                   co_filename := "x.py", co_name := "h" }) "<code h>" ]     -- 1

def ctxE : Ctx := { heap := heapE, limit := 10, usePickler := false }

/-- One link of the straight chain family: link `i` (heap id `2 + i`) points
    at the shared scalar pseudo-frame (id 1) and at link `i+1`, the last
    link at `None` (id 0). -/
def chainLink (L i : Nat) : Obj :=
  { kind := .traceback { tb_frame := 1
                         tb_lasti := (i : Int)
                         tb_lineno := (i : Int)
                         tb_next := if i + 1 = L then 0 else 3 + i },
    reprE := .ok ("<tb " ++ toString i ++ ">"), pickled := Option.none }

/-- The straight trace chain of length `L`: `None` at id 0, the shared
    scalar at id 1, links at ids `2 .. L+1`. -/
def mkChainHeap (L : Nat) : List Obj :=
  mkStd .none "None" :: mkStd (.int 7) "7" :: (List.range L).map (chainLink L)

/-- The chain-family cleaner with configured limit `k`. -/
def mkChainCtx (L : Nat) (k : Int) : Ctx :=
  { heap := mkChainHeap L, limit := k, usePickler := false }

/-- Heap D: two frames (ids 3 and 4) whose back references form a cycle. -/
def heapD : List Obj :=
  [ mkStd .none "None",                                            -- 0
    mkObj (.seq .tuple []) "()",                                   -- 1
    mkObj (.code { co_argcount := 0, co_consts := 1,
                   co_filename := "d.py", co_name := "w" }) "<code w>",      -- 2
    mkObj (.frame { f_back := 4, f_code := 2, f_globals := [], f_lasti := 0,
                    f_lineno := 1, f_locals := [], f_trace := 0 })
          "<frame X>",                                             -- 3
    mkObj (.frame { f_back := 3, f_code := 2, f_globals := [], f_lasti := 0,
                    f_lineno := 2, f_locals := [], f_trace := 0 })
          "<frame Y>" ]                                            -- 4

def ctxD : Ctx := { heap := heapD, limit := 10, usePickler := false }

/-- Heap W: a single object whose `__repr__` raises. -/
def heapW : List Obj :=
  [ { kind := .other [] false, reprE := .error "boom",
      pickled := Option.none } ]

def ctxW : Ctx := { heap := heapW, limit := 10, usePickler := false }

/-- The link id that link `j` of the straight chain points at next. -/
def chainNextId (L j : Nat) : Nat := if j + 1 = L then 0 else 3 + j

/-- The fully-populated mock dictionary of chain link `j`, with `next` the
    current value of its `tb_next` slot. -/
def linkDct (L j : Nat) (next : Rep) : Dct :=
  [("_repr", .literal ("<tb " ++ toString j ++ ">")),
   ("_mock", .fromImport "types" "TracebackType"),
   ("tb_frame", .std (.int 7)),
   ("tb_lasti", .std (.int j)),
   ("tb_lineno", .std (.int j)),
   ("tb_next", next)]

/-- The memo after the first `i` links of the straight chain have been
    processed (the shared pseudo-frame is cleaned during the first). -/
def chainSeen (i : Nat) : List (Nat × Rep) :=
  (2, .mock 0) :: (1, .std (.int 7)) ::
    (List.range (i - 1)).map (fun j => (3 + j, .mock (j + 1)))

/-- The arena at the loop boundary after `i ≥ 1` iterations: the last
    processed link still holds its raw `tb_next` capture. -/
def chainArenaMid (L i : Nat) : List Dct :=
  ((List.range (i - 1)).map (fun j => linkDct L j (.mock (j + 1)))) ++
    [linkDct L (i - 1) (.raw (chainNextId L (i - 1)))]

/-- The loop-boundary state after `i ≥ 1` iterations. -/
def chainStMid (L i : Nat) : St :=
  { seen := chainSeen i, arena := chainArenaMid L i }

/-- The final state after the walk has resolved `n` links and written the
    explicit `None` terminator into the last one. -/
def chainFin (L n : Nat) : St :=
  { seen := chainSeen n,
    arena := ((List.range (n - 1)).map (fun j => linkDct L j (.mock (j + 1)))) ++
      [linkDct L (n - 1) (.std .none)] }

/-- The partially-populated dictionary of chain link `j` right before its
    `tb_frame` slot is overwritten with the cleaned pseudo-frame. -/
def linkDctRawF (L j : Nat) : Dct :=
  [("_repr", .literal ("<tb " ++ toString j ++ ">")),
   ("_mock", .fromImport "types" "TracebackType"),
   ("tb_frame", .raw 1),
   ("tb_lasti", .std (.int j)),
   ("tb_lineno", .std (.int j)),
   ("tb_next", .raw (chainNextId L j))]


/-- The state in the middle of iteration `n` of the chain walk: links
    `0 .. n-1` fully populated, link `n` pre-registered with its raw
    attribute captures. -/
def chainPre (L n : Nat) : St :=
  { seen := chainSeen (n + 1),
    arena := ((List.range n).map (fun j => linkDct L j (.mock (j + 1)))) ++
      [linkDctRawF L n] }


/-- The state a clean-shaped result carries, whether it returned or raised. -/
def stR (r : Except (String × St) (Rep × St)) : St :=
  match r with
  | .ok x => x.2
  | .error x => x.2

/-- The state a loop-shaped result carries. -/
def stS (r : Except (String × St) St) : St :=
  match r with
  | .ok s => s
  | .error x => x.2

/-- The state a pair-comprehension result carries. -/
def stP (r : Except (String × St) (List (Rep × Rep) × St)) : St :=
  match r with
  | .ok x => x.2
  | .error x => x.2

/-- The state a sequence-comprehension result carries. -/
def stL (r : Except (String × St) (List Rep × St)) : St :=
  match r with
  | .ok x => x.2
  | .error x => x.2

/-- The memo invariant: the identity table holds at most one entry per
    object identity. -/
def SeenWF (st : St) : Prop := (seenKeys st).Nodup

theorem seenKeys_arena (st : St) (a : List Dct) :
    seenKeys { st with arena := a } = seenKeys st := rfl

theorem seenKeys_arenaSetKey (st : St) (idx : Nat) (k : String) (v : Rep) :
    seenKeys (arenaSetKey st idx k v) = seenKeys st := rfl

theorem seenKeys_setPrevKey (st : St) (p : Option Nat) (k : String) (v : Rep) :
    seenKeys (setPrevKey st p k v) = seenKeys st := by
  cases p <;> rfl

theorem alSet_keys (l : List (Nat × Rep)) (k : Nat) (v : Rep) :
    (alSet l k v).map Prod.fst =
      if l.any (fun p => p.1 == k) then l.map Prod.fst
      else l.map Prod.fst ++ [k] := by
  unfold alSet
  split
  · rw [List.map_map]
    refine congrArg₂ _ ?_ rfl
    funext p
    by_cases h : p.1 = k
    · simp [Function.comp, h]
    · simp [Function.comp, h]
  · simp

theorem nodup_alSet (l : List (Nat × Rep)) (k : Nat) (v : Rep)
    (h : (l.map Prod.fst).Nodup) : ((alSet l k v).map Prod.fst).Nodup := by
  rw [alSet_keys]
  split
  · exact h
  · rename_i hany
    rw [List.nodup_append]
    refine ⟨h, List.nodup_singleton k, ?_⟩
    intro a ha hk
    rw [List.mem_singleton] at hk
    subst hk
    rw [List.mem_map] at ha
    obtain ⟨p, hp, hpk⟩ := ha
    rw [Bool.not_eq_true, List.any_eq_false] at hany
    exact (hany p hp) (by simp [hpk])

theorem seenWF_seenSet (st : St) (k : Nat) (v : Rep) (h : SeenWF st) :
    SeenWF (seenSet st k v) :=
  nodup_alSet st.seen k v h

theorem seenWF_alloc (st : St) (a : List Dct) (t : Nat) (v : Rep)
    (h : SeenWF st) : SeenWF (seenSet { st with arena := a } t v) :=
  seenWF_seenSet _ _ _ h

theorem seenWF_steps (st : St) (a : List Dct) (t : Nat) (v : Rep)
    (p : Option Nat) (k : String) (w : Rep) (h : SeenWF st) :
    SeenWF (setPrevKey (seenSet { st with arena := a } t v) p k w) := by
  have h2 := seenWF_seenSet { st with arena := a } t v h
  simpa [SeenWF, seenKeys_setPrevKey] using h2

/-- The cleaner never duplicates a memo key: every function of the cleaning
    path preserves well-formedness of the identity memo, in both its normal
    and its raising outcome. -/
theorem seenWF_all (n : Nat) :
    (∀ ctx st objId depth, SeenWF st →
      SeenWF (stR (clean n ctx st objId depth))) ∧
    (∀ ctx st objId depth, SeenWF st →
      SeenWF (stR (clean_body n ctx st objId depth))) ∧
    (∀ ctx st objId obj depth, SeenWF st →
      SeenWF (stR (clean_traceback_types n ctx st objId obj depth))) ∧
    (∀ ctx st c t p depth, SeenWF st →
      SeenWF (stS (traceLoop n ctx st c t p depth))) ∧
    (∀ ctx st f p depth, SeenWF st →
      SeenWF (stS (frameLoop n ctx st f p depth))) ∧
    (∀ ctx st objId obj depth, SeenWF st →
      SeenWF (stR (clean_fallback n ctx st objId obj depth))) ∧
    (∀ ctx st entries depth, SeenWF st →
      SeenWF (stP (cleanPairs n ctx st entries depth))) ∧
    (∀ ctx st entries depth, SeenWF st →
      SeenWF (stP (cleanStrPairs n ctx st entries depth))) ∧
    (∀ ctx st elems depth, SeenWF st →
      SeenWF (stL (cleanList n ctx st elems depth))) ∧
    (∀ ctx st idx attrs depth, SeenWF st →
      SeenWF (stS (cleanAttrs n ctx st idx attrs depth))) := by
  induction n with
  | zero =>
    exact ⟨fun _ _ _ _ h => h, fun _ _ _ _ h => h, fun _ _ _ _ _ h => h,
      fun _ _ _ _ _ _ h => h, fun _ _ _ _ _ h => h, fun _ _ _ _ _ h => h,
      fun _ _ _ _ h => h, fun _ _ _ _ h => h, fun _ _ _ _ h => h,
      fun _ _ _ _ _ h => h⟩
  | succ m ih =>
    obtain ⟨ihC, ihB, ihT, ihTL, ihFL, ihFB, ihP, ihSP, ihL, ihA⟩ := ih
    refine ⟨?_, ?_, ?_, ?_, ?_, ?_, ?_, ?_, ?_, ?_⟩
    · -- clean
      intro ctx st o d h
      simp only [clean]
      split
      · exact h
      · split
        · rename_i res heq
          rw [← heq]
          exact ihB ctx st o (d - 1) h
        · rename_i e st2 heq
          have h3 : SeenWF (stR (Except.error (e, st2))) := by
            rw [← heq]
            exact ihB ctx st o (d - 1) h
          exact seenWF_seenSet _ _ _ h3
    · -- clean_body
      intro ctx st o d h
      simp only [clean_body]
      split
      · exact h
      · split
        · split
          · exact h
          · exact seenWF_seenSet _ _ _ h
        · split
          · exact ihT ctx st o _ d h
          · split
            · split
              · exact seenWF_seenSet _ _ _ h
              · exact ihFB ctx st o _ d h
            · exact ihFB ctx st o _ d h
    · -- clean_traceback_types
      intro ctx st o obj d h
      simp only [clean_traceback_types]
      split
      · -- traceback arm
        split
        · rename_i es heq
          have h3 : SeenWF (stS (Except.error es)) := by
            rw [← heq]
            exact ihTL ctx st ctx.limit.toNat o Option.none d h
          exact h3
        · rename_i st2 heq
          have h3 : SeenWF (stS (Except.ok st2)) := by
            rw [← heq]
            exact ihTL ctx st ctx.limit.toNat o Option.none d h
          split
          · exact h3
          · exact h3
      · -- frame arm
        split
        · rename_i es heq
          have h3 : SeenWF (stS (Except.error es)) := by
            rw [← heq]
            exact ihFL ctx st o Option.none d h
          exact h3
        · rename_i st2 heq
          have h3 : SeenWF (stS (Except.ok st2)) := by
            rw [← heq]
            exact ihFL ctx st o Option.none d h
          split
          · exact h3
          · exact h3
      · -- code arm
        split
        · exact h
        · split
          · rename_i es heq
            have h3 : SeenWF (stR (Except.error es)) := by
              rw [← heq]
              exact ihC ctx _ _ _
                (seenWF_alloc st [] o (.mock st.arena.length) h)
            exact h3
          · rename_i kr st3 heq
            have h3 : SeenWF (stR (Except.ok (kr, st3))) := by
              rw [← heq]
              exact ihC ctx _ _ _
                (seenWF_alloc st [] o (.mock st.arena.length) h)
            exact h3
      · exact h
    · -- traceLoop
      intro ctx st c t p d h
      simp only [traceLoop]
      split
      · simpa [SeenWF, stS, seenKeys_setPrevKey] using h
      · split
        · simpa [SeenWF, stS, seenKeys_setPrevKey] using h
        · split
          · simpa [SeenWF, stS, seenKeys_setPrevKey] using h
          · split
            · exact h
            · split
              · exact h
              · split
                · split
                  · rename_i es heq
                    have h3 : SeenWF (stR (Except.error es)) := by
                      rw [← heq]
                      exact ihC ctx _ _ _ (by
                        simp only [SeenWF, seenKeys_arenaSetKey,
                          seenKeys_setPrevKey]
                        exact seenWF_seenSet _ _ _ h)
                    exact h3
                  · rename_i fr st3 heq
                    have h3 : SeenWF (stR (Except.ok (fr, st3))) := by
                      rw [← heq]
                      exact ihC ctx _ _ _ (by
                        simp only [SeenWF, seenKeys_arenaSetKey,
                          seenKeys_setPrevKey]
                        exact seenWF_seenSet _ _ _ h)
                    exact ihTL ctx _ _ _ _ _ h3
                · simp only [SeenWF, stS, seenKeys_arenaSetKey,
                    seenKeys_setPrevKey]
                  exact seenWF_seenSet _ _ _ h
    · -- frameLoop
      intro ctx st f p d h
      simp only [frameLoop]
      split
      · exact h
      · split
        · simpa [SeenWF, stS, seenKeys_setPrevKey] using h
        · split
          · exact h
          · split
            · exact h
            · split
              · split
                · rename_i es heq
                  have h3 : SeenWF (stP (Except.error es)) := by
                    rw [← heq]
                    exact ihSP ctx _ _ _ (by
                      simp only [SeenWF, seenKeys_arenaSetKey,
                        seenKeys_setPrevKey]
                      exact seenWF_seenSet _ _ _ h)
                  exact h3
                · rename_i g st3 heq
                  have h3 : SeenWF (stP (Except.ok (g, st3))) := by
                    rw [← heq]
                    exact ihSP ctx _ _ _ (by
                      simp only [SeenWF, seenKeys_arenaSetKey,
                        seenKeys_setPrevKey]
                      exact seenWF_seenSet _ _ _ h)
                  split
                  · rename_i es2 heq2
                    have h4 : SeenWF (stP (Except.error es2)) := by
                      rw [← heq2]
                      exact ihSP ctx _ _ _ h3
                    exact h4
                  · rename_i l st4 heq2
                    have h4 : SeenWF (stP (Except.ok (l, st4))) := by
                      rw [← heq2]
                      exact ihSP ctx _ _ _ h3
                    split
                    · rename_i es3 heq3
                      have h5 : SeenWF (stR (Except.error es3)) := by
                        rw [← heq3]
                        exact ihC ctx _ _ _ h4
                      exact h5
                    · rename_i tr st5 heq3
                      have h5 : SeenWF (stR (Except.ok (tr, st5))) := by
                        rw [← heq3]
                        exact ihC ctx _ _ _ h4
                      split
                      · rename_i es4 heq4
                        have h6 : SeenWF (stR (Except.error es4)) := by
                          rw [← heq4]
                          exact ihC ctx _ _ _ h5
                        exact h6
                      · rename_i cd st6 heq4
                        have h6 : SeenWF (stR (Except.ok (cd, st6))) := by
                          rw [← heq4]
                          exact ihC ctx _ _ _ h5
                        exact ihFL ctx _ _ _ _ h6
              · simp only [SeenWF, stS, seenKeys_arenaSetKey,
                  seenKeys_setPrevKey]
                exact seenWF_seenSet _ _ _ h
    · -- clean_fallback
      intro ctx st o obj d h
      simp only [clean_fallback]
      split
      · -- dict
        split
        · rename_i es heq
          have h3 : SeenWF (stP (Except.error es)) := by
            rw [← heq]
            exact ihP ctx st _ d h
          exact h3
        · rename_i ps st2 heq
          have h3 : SeenWF (stP (Except.ok (ps, st2))) := by
            rw [← heq]
            exact ihP ctx st _ d h
          exact seenWF_seenSet _ _ _ h3
      · -- seq
        split
        · rename_i es heq
          have h3 : SeenWF (stL (Except.error es)) := by
            rw [← heq]
            exact ihL ctx st _ d h
          exact h3
        · rename_i rs st2 heq
          have h3 : SeenWF (stL (Except.ok (rs, st2))) := by
            rw [← heq]
            exact ihL ctx st _ d h
          exact seenWF_seenSet _ _ _ h3
      · exact seenWF_seenSet _ _ _ h
      · exact seenWF_seenSet _ _ _ h
      · -- module
        split
        · exact seenWF_seenSet _ _ _ h
        · split
          · exact seenWF_seenSet _ _ _ h
          · split
            · exact h
            · exact seenWF_seenSet _ _ _ h
      · -- other
        split
        · exact h
        · split
          · exact seenWF_seenSet _ _ _
              (seenWF_alloc st [] o (.mock st.arena.length) h)
          · split
            · rename_i st2 heq
              have h3 : SeenWF (stS (Except.ok st2)) := by
                rw [← heq]
                exact ihA ctx _ _ _ _
                  (seenWF_alloc st [] o (.mock st.arena.length) h)
              exact h3
            · rename_i e2 st2 heq
              have h3 : SeenWF (stS (Except.error (e2, st2))) := by
                rw [← heq]
                exact ihA ctx _ _ _ _
                  (seenWF_alloc st [] o (.mock st.arena.length) h)
              exact seenWF_seenSet _ _ _ h3
      · exact h
      · exact h
      · exact h
    · -- cleanPairs
      intro ctx st entries d h
      simp only [cleanPairs]
      split
      · exact h
      · split
        · rename_i es heq
          have h3 : SeenWF (stR (Except.error es)) := by
            rw [← heq]
            exact ihC ctx st _ d h
          exact h3
        · rename_i rk st2 heq
          have h3 : SeenWF (stR (Except.ok (rk, st2))) := by
            rw [← heq]
            exact ihC ctx st _ d h
          split
          · rename_i es2 heq2
            have h4 : SeenWF (stR (Except.error es2)) := by
              rw [← heq2]
              exact ihC ctx st2 _ d h3
            exact h4
          · rename_i rv st3 heq2
            have h4 : SeenWF (stR (Except.ok (rv, st3))) := by
              rw [← heq2]
              exact ihC ctx st2 _ d h3
            split
            · rename_i es3 heq3
              have h5 : SeenWF (stP (Except.error es3)) := by
                rw [← heq3]
                exact ihP ctx st3 _ d h4
              exact h5
            · rename_i tail st4 heq3
              have h5 : SeenWF (stP (Except.ok (tail, st4))) := by
                rw [← heq3]
                exact ihP ctx st3 _ d h4
              exact h5
    · -- cleanStrPairs
      intro ctx st entries d h
      simp only [cleanStrPairs]
      split
      · exact h
      · split
        · rename_i es heq
          have h3 : SeenWF (stR (Except.error es)) := by
            rw [← heq]
            exact ihC ctx st _ d h
          exact h3
        · rename_i rv st2 heq
          have h3 : SeenWF (stR (Except.ok (rv, st2))) := by
            rw [← heq]
            exact ihC ctx st _ d h
          split
          · rename_i es2 heq2
            have h4 : SeenWF (stP (Except.error es2)) := by
              rw [← heq2]
              exact ihSP ctx st2 _ d h3
            exact h4
          · rename_i tail st3 heq2
            have h4 : SeenWF (stP (Except.ok (tail, st3))) := by
              rw [← heq2]
              exact ihSP ctx st2 _ d h3
            exact h4
    · -- cleanList
      intro ctx st elems d h
      simp only [cleanList]
      split
      · exact h
      · split
        · rename_i es heq
          have h3 : SeenWF (stR (Except.error es)) := by
            rw [← heq]
            exact ihC ctx st _ d h
          exact h3
        · rename_i r st2 heq
          have h3 : SeenWF (stR (Except.ok (r, st2))) := by
            rw [← heq]
            exact ihC ctx st _ d h
          split
          · rename_i es2 heq2
            have h4 : SeenWF (stL (Except.error es2)) := by
              rw [← heq2]
              exact ihL ctx st2 _ d h3
            exact h4
          · rename_i tail st3 heq2
            have h4 : SeenWF (stL (Except.ok (tail, st3))) := by
              rw [← heq2]
              exact ihL ctx st2 _ d h3
            exact h4
    · -- cleanAttrs
      intro ctx st idx attrs d h
      simp only [cleanAttrs]
      split
      · exact h
      · split
        · rename_i es heq
          have h3 : SeenWF (stR (Except.error es)) := by
            rw [← heq]
            exact ihC ctx st _ d h
          exact h3
        · rename_i r st2 heq
          have h3 : SeenWF (stR (Except.ok (r, st2))) := by
            rw [← heq]
            exact ihC ctx st _ d h
          exact ihA ctx _ _ _ _ h3

/-- C9: invoking a reconstructed `Stub` placeholder, with any positional and
    keyword arguments, always raises, with the same descriptive message
    stating the original callable was not serialized, deterministically:
    the outcome is independent of the arguments and of the invocation. -/
theorem c9_stub_always_raises :
    (∀ args kwargs, _stub args kwargs = .error stubMessage) ∧
    (∀ a k a2 k2, _stub a k = _stub a2 k2) :=
  ⟨fun _ _ => rfl, fun _ _ _ _ => rfl⟩

/-- C10: a falsy `limit` argument (`None` or the falsy integer `0`) is
    silently replaced by `floor(sqrt(recursion limit))`; a cleaner
    configured with `limit=0` is the very same cleaner as one with the
    argument omitted, and on a three-link chain (recursion limit 100, so
    default limit 10) it produces three resolved trace nodes, not zero. -/
theorem c10_falsy_limit_defaults :
    (∀ rl, cleanerLimit (some 0) rl = (Nat.sqrt rl : Int) ∧
      cleanerLimit Option.none rl = (Nat.sqrt rl : Int)) ∧
    (∀ heap p rl,
      mkCleaner heap p (some 0) rl = mkCleaner heap p Option.none rl) ∧
    (clean 80 (mkCleaner (mkChainHeap 3) false (some 0) 100) st0 2 3).map
        (fun x => countTraceMocks x.2) = .ok 3 := by
  refine ⟨fun rl => ⟨rfl, rfl⟩, fun heap p rl => rfl, ?_⟩
  have hs : Nat.sqrt 100 = 10 := by simpa using Nat.sqrt_eq 10
  have hctx : mkCleaner (mkChainHeap 3) false (some 0) 100 = mkChainCtx 3 10 := by
    simp [mkCleaner, cleanerLimit, mkChainCtx, hs]
  rw [hctx]
  rfl

/-- C8: `clean_fallback` on a value whose type pickle already handles
    natively returns the value itself unchanged (identity pass-through,
    modelled as the same scalar payload), memoizing it — never a mock,
    stub, container or textual representation. -/
theorem c8_std_passthrough (m : Nat) (ctx : Ctx) (st : St) (objId : Nat)
    (obj : Obj) (depth : Int) (v : PyLit) (h : obj.kind = .std v) :
    clean_fallback (m + 1) ctx st objId obj depth =
      .ok (.std v, seenSet st objId (.std v)) := by
  obtain ⟨k, r, p⟩ := obj
  cases h
  rfl

/-- Witness for C8 at a concrete input: the plain integer 42. -/
theorem c8_std_passthrough_witness :
    clean_fallback 1 ctxA st0 1 (mkStd (.int 42) "42") 3 =
      .ok (.std (.int 42), seenSet st0 1 (.std (.int 42))) :=
  c8_std_passthrough 0 ctxA st0 1 (mkStd (.int 42) "42") 3 (.int 42) rfl

/-- C5 (the code's divergence from its own documentation): with the
    documented "unlimited" configuration `depth = -1`, cleaning a bare
    compiled-routine descriptor still takes the depth-exhaustion branch on
    the descriptor's constant tuple — the `depth+2` fan-out lands exactly on
    the `-1` sentinel — collapsing it to its bare textual representation,
    while the same cleaning at the finite default `depth = 3` keeps the
    tuple structural. -/
theorem c5_unlimited_depth_still_exhausts :
    (∃ st1, clean 30 ctxE st0 1 (-1) = .ok (.mock 0, st1) ∧
      dctGet (st1.arena.getD 0 []) "co_consts" = some (.literal "()")) ∧
    (∃ st2, clean 30 ctxE st0 1 3 = .ok (.mock 0, st2) ∧
      dctGet (st2.arena.getD 0 []) "co_consts" = some (.seqc .tuple [])) :=
  ⟨⟨_, rfl, rfl⟩, ⟨_, rfl, rfl⟩⟩

/-- C6 counterexample: invoking `clean` with `depth = 0` on the three-link
    chain of heap A returns the chain's bare textual representation at once:
    no trace link is flattened into a resolved node (the arena stays empty),
    because the depth-exhaustion test precedes the chain dispatch. -/
theorem c6_depth0_collapses_chain :
    clean 80 ctxA st0 6 0 =
      .ok (.literal "<tb1>",
        { seen := [(6, .literal "<tb1>")], arena := [] }) := rfl

set_option maxHeartbeats 2000000 in
/-- C6 amended: at any depth that survives the entry decrement (here the
    minimal `depth = 1`), every non-chain value collapses immediately to
    text (the frame's global `x`, local `y` and trace hook all become
    literals) while the chain structure itself is still flattened: all
    three links and both frames of the cyclic chain become resolved mock
    nodes, the chain length being governed by `limit`, not `depth`. -/
theorem c6_amended_depth1_flattens_chain :
    ∃ st1, clean 80 ctxA st0 6 1 = .ok (.mock 0, st1) ∧
      countTraceMocks st1 = 3 ∧
      countFrameMocks st1 = 2 ∧
      dctGet (st1.arena.getD 1 []) "f_globals" =
        some (.dict [(.std (.str "x"), .literal "42")]) ∧
      dctGet (st1.arena.getD 1 []) "f_locals" =
        some (.dict [(.std (.str "y"), .literal "42")]) ∧
      dctGet (st1.arena.getD 1 []) "f_trace" = some (.literal "None") :=
  ⟨_, rfl, rfl, rfl, rfl, rfl, rfl⟩

/-- C4 counterexample: on a two-frame back-reference chain with configured
    `limit = 1`, the frame walk resolves two frame nodes — more than the
    configured limit — because the `while frame:` loop of the frame branch
    has no limit check. -/
theorem c4_frame_walk_ignores_limit :
    ∃ st1, clean 80 ctxB st0 4 3 = .ok (.mock 0, st1) ∧
      ctxB.limit = 1 ∧
      countFrameMocks st1 = 2 ∧
      ¬ countFrameMocks st1 ≤ ctxB.limit.toNat :=
  ⟨_, rfl, rfl, rfl, by decide⟩

/-- C4 amended: the frame walk stops only when the chain ends (the last
    frame's raw falsy `f_back` survives in its dict) or when it reaches an
    already-memoized frame (the cyclic pair of heap D terminates with the
    second frame's `f_back` linked to the first frame's shared mock
    instance); only the traceback-link walk is bounded by `limit`. -/
theorem c4_amended_frame_walk_stops :
    (∃ st1, clean 80 ctxB st0 4 3 = .ok (.mock 0, st1) ∧
      countFrameMocks st1 = 2 ∧
      dctGet (st1.arena.getD 2 []) "f_back" = some (.raw 0) ∧
      isPyNone ctxB 0 = true) ∧
    (∃ st2, clean 80 ctxD st0 3 3 = .ok (.mock 0, st2) ∧
      countFrameMocks st2 = 2 ∧
      dctGet (st2.arena.getD 2 []) "f_back" = some (.mock 0)) :=
  ⟨⟨_, rfl, rfl, rfl, rfl⟩, ⟨_, rfl, rfl, rfl⟩⟩

/-- C7 counterexample: the frame's compiled-routine descriptor is *not*
    cleaned at the same depth as the frame's other nested values.  On heap C
    at entry depth 1, the trace hook — cleaned at the normal depth — has
    collapsed to a bare literal, and so would the descriptor if it were
    cleaned at that same depth (cleaning the descriptor at the normal depth
    yields a bare literal), yet the captured `f_code` is a structural mock
    node. -/
theorem c7_descriptor_not_at_normal_depth :
    ∃ st1, clean 60 ctxC st0 4 1 = .ok (.mock 0, st1) ∧
      dctGet (st1.arena.getD 0 []) "f_trace" = some (.literal "None") ∧
      dctGet (st1.arena.getD 0 []) "f_code" = some (.mock 1) ∧
      (clean 30 ctxC st0 3 0).map (fun x => x.1) = .ok (.literal "<code fn>") :=
  ⟨_, rfl, rfl, rfl, rfl⟩

/-- C7 amended: when cleaning a frame node, the captured frame attributes
    are exactly the `f_`-prefixed ones (next to the two `_repr`/`_mock`
    bookkeeping keys every mock carries); double-underscore globals are
    excluded; the descriptor's constant values are fanned out with
    `depth+2` (the constant tuple keeps its scalar element structural,
    which a smaller bump would have collapsed); the trace hook is cleaned
    at the normal depth (collapsing alongside the other nested values);
    and the descriptor is cleaned at `depth+1`, one level more than the
    other nested values. -/
theorem c7_amended_frame_policy :
    ∃ st1, clean 60 ctxC st0 4 1 = .ok (.mock 0, st1) ∧
      (st1.arena.getD 0 []).map (fun p => p.1) =
        ["_repr", "_mock", "f_back", "f_lasti", "f_lineno", "f_builtins",
         "f_globals", "f_locals", "f_trace", "f_code"] ∧
      dctGet (st1.arena.getD 0 []) "f_globals" =
        some (.dict [(.std (.str "g"), .literal "42")]) ∧
      dctGet (st1.arena.getD 1 []) "co_consts" =
        some (.seqc .tuple [.std (.int 43)]) ∧
      dctGet (st1.arena.getD 0 []) "f_trace" = some (.literal "None") ∧
      dctGet (st1.arena.getD 0 []) "f_code" = some (.mock 1) :=
  ⟨_, rfl, rfl, rfl, rfl, rfl, rfl⟩

/-- C1: `clean` never raises — whenever the call itself can begin (the
    recursion budget is not already exhausted on entry), it returns a
    representation for every heap, state, object and depth; and when the
    dispatch body fails internally with message `e`, the result is exactly
    the memoized textual description `"Failed to serialize object: " ++ e`
    built from the caught failure. -/
theorem c1_clean_never_raises :
    (∀ m ctx st objId depth,
      ∃ r st2, clean (m + 1) ctx st objId depth = .ok (r, st2)) ∧
    (∀ m ctx st objId depth e st2,
      seenGet st objId = Option.none →
      clean_body m ctx st objId (depth - 1) = .error (e, st2) →
      clean (m + 1) ctx st objId depth =
        .ok (.literal ("Failed to serialize object: " ++ e),
          seenSet st2 objId
            (.literal ("Failed to serialize object: " ++ e)))) := by
  constructor
  · intro m ctx st objId depth
    simp only [clean]
    cases hs : seenGet st objId with
    | some r => exact ⟨r, st, rfl⟩
    | none =>
      cases hb : clean_body m ctx st objId (depth - 1) with
      | ok res => exact ⟨res.1, res.2, rfl⟩
      | error es => exact ⟨_, _, rfl⟩
  · intro m ctx st objId depth e st2 hs hb
    simp only [clean, hs, hb]

/-- Witness for C1 at a concrete input: an object whose `__repr__` raises
    `boom` at exhausted depth; the failure is converted, not propagated. -/
theorem c1_clean_never_raises_witness :
    clean 5 ctxW st0 0 0 =
      .ok (.literal "Failed to serialize object: boom",
        seenSet st0 0 (.literal "Failed to serialize object: boom")) :=
  c1_clean_never_raises.2 4 ctxW st0 0 0 "boom" st0 rfl rfl

set_option maxHeartbeats 4000000 in
/-- C2: cleaning keeps exactly one memo entry per distinct object identity —
    every function of the cleaning path preserves distinctness of the memo's
    keys — and on the concrete self-referential chain of heap A (link 3's
    `tb_next` points back at link 1, links 1 and 3 reference the identical
    frame object) cleaning at depth 5 terminates, the memo holds exactly the
    nine distinct identities visited, each once, and both references to the
    shared frame resolve to the single shared mock instance at arena index
    1, not two copies. -/
theorem c2_cycle_memo_sharing :
    (∀ fuel ctx st objId depth, SeenWF st →
      SeenWF (stR (clean fuel ctx st objId depth))) ∧
    (∃ st1, clean 80 ctxA st0 6 5 = .ok (.mock 0, st1) ∧
      seenKeys st1 = [6, 4, 1, 0, 3, 2, 7, 5, 8] ∧
      ([6, 4, 1, 0, 3, 2, 7, 5, 8] : List Nat).Nodup ∧
      dctGet (st1.arena.getD 0 []) "tb_frame" = some (.mock 1) ∧
      dctGet (st1.arena.getD 5 []) "tb_frame" = some (.mock 1)) := by
  refine ⟨fun fuel ctx st objId depth h =>
    (seenWF_all fuel).1 ctx st objId depth h, ?_⟩
  exact ⟨_, rfl, rfl, by decide, rfl, rfl⟩

/-- Witness for C2 at a concrete input: the empty memo is well-formed and
    stays so across a clean call. -/
theorem c2_cycle_memo_sharing_witness :
    SeenWF (stR (clean 5 ctxA st0 1 3)) :=
  c2_cycle_memo_sharing.1 5 ctxA st0 1 3 List.nodup_nil

theorem list_getD_mid {α} (A : List α) (B : α) (C : List α) (d : α) :
    (A ++ B :: C).getD A.length d = B := by
  induction A with
  | nil => rfl
  | cons a A ih => simpa using ih

theorem list_set_mid {α} (A : List α) (B X : α) (C : List α) :
    (A ++ B :: C).set A.length X = A ++ X :: C := by
  induction A with
  | nil => rfl
  | cons a A ih => simp [List.set, ih]

theorem dctSet_linkDct_next (L j : Nat) (r v : Rep) :
    dctSet (linkDct L j r) "tb_next" v = linkDct L j v := rfl

theorem lookup_chain (L i : Nat) (kk : Int) (h : i < L) :
    lookupObj (mkChainCtx L kk) (2 + i) = some (chainLink L i) := by
  show (mkChainHeap L).get? (2 + i) = some (chainLink L i)
  rw [show 2 + i = (i + 1) + 1 from by omega]
  simp only [mkChainHeap, List.get?_cons_succ, List.get?_map]
  rw [List.get?_range h]
  rfl

theorem isPyNone_chain (L i : Nat) (kk : Int) (h : i < L) :
    isPyNone (mkChainCtx L kk) (2 + i) = false := by
  simp [isPyNone, lookup_chain L i kk h, chainLink]

theorem chainSeen_find_none (i t : Nat) (h2 : t ≠ 2) (h1 : t ≠ 1)
    (h3 : ∀ j, j < i - 1 → 3 + j ≠ t) :
    (chainSeen i).find? (fun p => p.1 == t) = Option.none := by
  rw [List.find?_eq_none]
  intro x hx
  simp only [chainSeen, List.mem_cons, List.mem_map, List.mem_range] at hx
  rcases hx with rfl | rfl | ⟨j, hj, rfl⟩
  · simpa using fun hh => h2 hh.symm
  · simpa using fun hh => h1 hh.symm
  · simpa using h3 j hj

theorem seenGet_chainMid_none (L i t : Nat) (h2 : t ≠ 2) (h1 : t ≠ 1)
    (h3 : ∀ j, j < i - 1 → 3 + j ≠ t) :
    seenGet (chainStMid L i) t = Option.none := by
  simp [seenGet, chainStMid, chainSeen_find_none i t h2 h1 h3]

theorem chainSeen_snoc (i : Nat) (h : 1 ≤ i) :
    alSet (chainSeen i) (2 + i) (.mock i) = chainSeen (i + 1) := by
  obtain ⟨i', rfl⟩ : ∃ i', i = i' + 1 := ⟨i - 1, by omega⟩
  have hne : (chainSeen (i' + 1)).any (fun p => p.1 == (2 + (i' + 1))) = false := by
    rw [List.any_eq_false]
    intro x hx
    simp only [chainSeen, List.mem_cons, List.mem_map, List.mem_range] at hx
    rcases hx with rfl | rfl | ⟨j, hj, rfl⟩ <;>
      simp only [beq_iff_eq] <;> omega
  rw [alSet, hne]
  simp only [Bool.false_eq_true, if_false, chainSeen]
  rw [show (i' + 1 + 1 - 1) = i' + 1 from rfl, List.range_succ]
  simp only [Nat.add_sub_cancel, List.map_append, List.map_cons, List.map_nil]
  simp
  omega



theorem clean_memo_hit (g : Nat) (ctx : Ctx) (st : St) (t : Nat) (d : Int)
    (r : Rep) (h : seenGet st t = some r) :
    clean (g + 1) ctx st t d = .ok (r, st) := by
  simp only [clean, h]

theorem list_getD_at {α} (A : List α) (B : α) (C : List α) (d : α) (n : Nat)
    (h : n = A.length) : (A ++ B :: C).getD n d = B := by
  subst h
  exact list_getD_mid A B C d

theorem list_set_at {α} (A : List α) (B X : α) (C : List α) (n : Nat)
    (h : n = A.length) : (A ++ B :: C).set n X = A ++ X :: C := by
  subst h
  exact list_set_mid A B X C

theorem chainPre_frame (L n : Nat) :
    arenaSetKey (chainPre L n) n "tb_frame" (.std (.int 7)) =
      chainStMid L (n + 1) := by
  unfold arenaSetKey chainPre chainStMid chainArenaMid
  congr 1
  rw [list_getD_at _ (linkDctRawF L n) [] _ n (by simp),
      list_set_at _ (linkDctRawF L n) _ [] n (by simp)]
  rfl

theorem chain_iter_state (L i' : Nat) :
    arenaSetKey
      (arenaSetKey
        (arenaSetKey
          (arenaSetKey
            (setPrevKey
              (seenSet
                { seen := (chainStMid L (i' + 1)).seen,
                  arena :=
                    (chainStMid L (i' + 1)).arena ++
                      [[("_repr", Rep.literal ("<tb " ++ toString (i' + 1) ++ ">")),
                        ("_mock", Rep.fromImport "types" "TracebackType")]] }
                (2 + (i' + 1)) (Rep.mock (i' + 1)))
              (some i') "tb_next" (Rep.mock (i' + 1)))
            (i' + 1) "tb_frame" (Rep.raw 1))
          (i' + 1) "tb_lasti" (Rep.std (PyLit.int ((i' + 1 : Nat) : Int))))
        (i' + 1) "tb_lineno" (Rep.std (PyLit.int ((i' + 1 : Nat) : Int))))
      (i' + 1) "tb_next" (Rep.raw (if i' + 1 + 1 = L then 0 else 3 + (i' + 1))) =
    chainPre L (i' + 1) := by
  have hseen :
      alSet (chainSeen (i' + 1)) (2 + (i' + 1)) (.mock (i' + 1)) =
        chainSeen (i' + 1 + 1) := chainSeen_snoc (i' + 1) (by omega)
  simp only [arenaSetKey, setPrevKey, seenSet, chainStMid, chainPre]
  congr 1
  · -- arena field
    have hmid : chainArenaMid L (i' + 1) ++
        [[("_repr", Rep.literal ("<tb " ++ toString (i' + 1) ++ ">")),
          ("_mock", Rep.fromImport "types" "TracebackType")]] =
        ((List.range i').map (fun j => linkDct L j (.mock (j + 1)))) ++
          (linkDct L i' (.raw (chainNextId L i'))) ::
          [[("_repr", Rep.literal ("<tb " ++ toString (i' + 1) ++ ">")),
            ("_mock", Rep.fromImport "types" "TracebackType")]] := by
      unfold chainArenaMid
      simp
    rw [hmid]
    rw [list_getD_at _ _ _ _ i' (by simp), list_set_at _ _ _ _ i' (by simp)]
    rw [dctSet_linkDct_next]
    have hre : ((List.range i').map (fun j => linkDct L j (.mock (j + 1)))) ++
        (linkDct L i' (.mock (i' + 1))) ::
        [[("_repr", Rep.literal ("<tb " ++ toString (i' + 1) ++ ">")),
          ("_mock", Rep.fromImport "types" "TracebackType")]] =
        ((List.range (i' + 1)).map (fun j => linkDct L j (.mock (j + 1)))) ++
          [[("_repr", Rep.literal ("<tb " ++ toString (i' + 1) ++ ">")),
            ("_mock", Rep.fromImport "types" "TracebackType")]] := by
      rw [List.range_succ]
      simp
    rw [hre]
    rw [list_getD_at _ _ [] _ (i' + 1) (by simp), list_set_at _ _ _ [] (i' + 1) (by simp)]
    rw [show dctSet [("_repr", Rep.literal ("<tb " ++ toString (i' + 1) ++ ">")),
          ("_mock", Rep.fromImport "types" "TracebackType")] "tb_frame" (Rep.raw 1) =
        [("_repr", Rep.literal ("<tb " ++ toString (i' + 1) ++ ">")),
          ("_mock", Rep.fromImport "types" "TracebackType"),
          ("tb_frame", Rep.raw 1)] from rfl]
    rw [list_getD_at _ _ [] _ (i' + 1) (by simp), list_set_at _ _ _ [] (i' + 1) (by simp)]
    rw [show dctSet [("_repr", Rep.literal ("<tb " ++ toString (i' + 1) ++ ">")),
          ("_mock", Rep.fromImport "types" "TracebackType"),
          ("tb_frame", Rep.raw 1)] "tb_lasti" (Rep.std (PyLit.int ((i' + 1 : Nat) : Int))) =
        [("_repr", Rep.literal ("<tb " ++ toString (i' + 1) ++ ">")),
          ("_mock", Rep.fromImport "types" "TracebackType"),
          ("tb_frame", Rep.raw 1),
          ("tb_lasti", Rep.std (PyLit.int ((i' + 1 : Nat) : Int)))] from rfl]
    rw [list_getD_at _ _ [] _ (i' + 1) (by simp), list_set_at _ _ _ [] (i' + 1) (by simp)]
    rw [show dctSet [("_repr", Rep.literal ("<tb " ++ toString (i' + 1) ++ ">")),
          ("_mock", Rep.fromImport "types" "TracebackType"),
          ("tb_frame", Rep.raw 1),
          ("tb_lasti", Rep.std (PyLit.int ((i' + 1 : Nat) : Int)))] "tb_lineno"
          (Rep.std (PyLit.int ((i' + 1 : Nat) : Int))) =
        [("_repr", Rep.literal ("<tb " ++ toString (i' + 1) ++ ">")),
          ("_mock", Rep.fromImport "types" "TracebackType"),
          ("tb_frame", Rep.raw 1),
          ("tb_lasti", Rep.std (PyLit.int ((i' + 1 : Nat) : Int))),
          ("tb_lineno", Rep.std (PyLit.int ((i' + 1 : Nat) : Int)))] from rfl]
    rw [list_getD_at _ _ [] _ (i' + 1) (by simp), list_set_at _ _ _ [] (i' + 1) (by simp)]
    rfl



theorem traceLoop_chain_step (L : Nat) (kk : Int) (c i' g : Nat)
    (hL : i' + 1 < L) :
    traceLoop (g + 2) (mkChainCtx L kk) (chainStMid L (i' + 1)) (c + 1)
        (2 + (i' + 1)) (some i') 2 =
      traceLoop (g + 1) (mkChainCtx L kk) (chainStMid L (i' + 1 + 1)) c
        (chainNextId L (i' + 1)) (some (i' + 1)) 2 := by
  have hNone := isPyNone_chain L (i' + 1) kk hL
  have hSeen : seenGet (chainStMid L (i' + 1)) (2 + (i' + 1)) = Option.none := by
    apply seenGet_chainMid_none <;> omega
  have hLook := lookup_chain L (i' + 1) kk hL
  have hLen : (chainStMid L (i' + 1)).arena.length = i' + 1 := by
    simp [chainStMid, chainArenaMid]
  conv_lhs => rw [traceLoop]
  simp only [hNone, hSeen, hLook, Bool.false_eq_true, if_false, chainLink, hLen]
  rw [chain_iter_state L i']
  rw [clean_memo_hit g (mkChainCtx L kk) (chainPre L (i' + 1)) 1 (2 + 1)
      (.std (.int 7)) rfl]
  dsimp only
  rw [chainPre_frame]
  rfl



theorem traceLoop_chain_base (L : Nat) (kk : Int) (g tid i' : Nat) :
    traceLoop (g + 1) (mkChainCtx L kk) (chainStMid L (i' + 1)) 0 tid
        (some i') 2 = .ok (chainFin L (i' + 1)) := by
  simp only [traceLoop]
  congr 1
  simp only [setPrevKey, arenaSetKey, chainStMid, chainFin, chainArenaMid]
  congr 1
  rw [list_getD_at _ _ [] _ i' (by simp), list_set_at _ _ _ [] i' (by simp)]
  rw [dctSet_linkDct_next]

theorem traceLoop_chain (L : Nat) (kk : Int) :
    ∀ (c i' f tid : Nat), i' + 1 + c ≤ L → (0 < c → tid = 2 + (i' + 1)) →
      c + 1 ≤ f →
      traceLoop (f + 1) (mkChainCtx L kk) (chainStMid L (i' + 1)) c tid
        (some i') 2 = .ok (chainFin L (i' + 1 + c)) := by
  intro c
  induction c with
  | zero =>
    intro i' f tid h2 _ _
    exact traceLoop_chain_base L kk f tid i'
  | succ c ihc =>
    intro i' f tid h2 htid hf
    obtain ⟨g, rfl⟩ : ∃ g, f = g + 1 := ⟨f - 1, by omega⟩
    rw [htid (by omega)]
    rw [show g + 1 + 1 = g + 2 from rfl]
    rw [traceLoop_chain_step L kk c i' g (by omega)]
    have hnext : 0 < c → chainNextId L (i' + 1) = 2 + (i' + 1 + 1) := by
      intro hc
      rw [chainNextId, if_neg (by omega)]
      omega
    have := ihc (i' + 1) g (chainNextId L (i' + 1)) (by omega) hnext (by omega)
    rw [this]
    have harg : i' + 1 + 1 + c = i' + 1 + (c + 1) := by omega
    rw [harg]



theorem traceLoop_chain_start (L : Nat) (kk : Int) (k' g : Nat) (hL : 2 ≤ L) :
    traceLoop (g + 4) (mkChainCtx L kk) st0 (k' + 1) 2 Option.none 2 =
      traceLoop (g + 3) (mkChainCtx L kk) (chainStMid L 1) k'
        (chainNextId L 0) (some 0) 2 := by
  have hN : isPyNone (mkChainCtx L kk) 2 = false := by
    simpa using isPyNone_chain L 0 kk (by omega)
  have hS : seenGet st0 2 = Option.none := rfl
  have hLk0 : lookupObj (mkChainCtx L kk) 2 = some (chainLink L 0) := by
    simpa using lookup_chain L 0 kk (by omega)
  have hlink : chainLink L 0 =
      { kind := .traceback
          { tb_frame := 1, tb_lasti := 0, tb_lineno := 0, tb_next := 3 },
        reprE := .ok "<tb 0>", pickled := Option.none } := by
    unfold chainLink
    rw [if_neg (show ¬ (0 + 1 = L) from by omega)]
    rfl
  have hnx : chainNextId L 0 = 3 := by
    unfold chainNextId
    rw [if_neg (show ¬ (0 + 1 = L) from by omega)]
  have hLk1 : lookupObj (mkChainCtx L kk) 1 = some (mkStd (.int 7) "7") := rfl
  have hmid1 : chainStMid L 1 =
      { seen := [(2, .mock 0), (1, .std (.int 7))],
        arena := [linkDct L 0 (.raw 3)] } := by
    simp [chainStMid, chainSeen, chainArenaMid, hnx]
  rw [hmid1, hnx]
  conv_lhs => rw [traceLoop]
  simp only [hN, hS, hLk0, hlink, hLk1, Bool.false_eq_true, if_false,
    clean, clean_body, clean_fallback, st0, seenGet, seenSet, alSet,
    arenaSetKey, setPrevKey, dctSet, isTracebackType, List.find?, List.any,
    mkStd]
  rfl



theorem clean_chain_run (L k : Nat) (h1 : 1 ≤ k) (h2 : k < L) :
    clean (2 * k + 12) (mkChainCtx L k) st0 2 3 =
      .ok (.mock 0, chainFin L k) := by
  obtain ⟨k', rfl⟩ : ∃ k', k = k' + 1 := ⟨k - 1, by omega⟩
  have hS : seenGet st0 2 = Option.none := rfl
  have hLk0 : lookupObj (mkChainCtx L ((k' + 1 : Nat) : Int)) 2 =
      some (chainLink L 0) := by
    simpa using lookup_chain L 0 ((k' + 1 : Nat) : Int) (by omega)
  have hlim : (mkChainCtx L ((k' + 1 : Nat) : Int)).limit.toNat = k' + 1 := by
    simp [mkChainCtx]
  have hnx : 0 < k' → chainNextId L 0 = 2 + (0 + 1) := by
    intro hc
    rw [chainNextId, if_neg (by omega)]
  have hloop : traceLoop (2 * k' + 11) (mkChainCtx L ((k' + 1 : Nat) : Int))
      st0 (k' + 1) 2 Option.none 2 = .ok (chainFin L (k' + 1)) := by
    rw [show 2 * k' + 11 = (2 * k' + 7) + 4 from by ring]
    rw [traceLoop_chain_start L ((k' + 1 : Nat) : Int) k' (2 * k' + 7)
      (by omega)]
    rw [show (2 * k' + 7) + 3 = (2 * k' + 9) + 1 from by ring]
    rw [traceLoop_chain L ((k' + 1 : Nat) : Int) k' 0 (2 * k' + 9)
      (chainNextId L 0) (by omega) hnx (by omega)]
    rw [show 0 + 1 + k' = k' + 1 from by omega]
  have hSfin : seenGet (chainFin L (k' + 1)) 2 = some (.mock 0) := rfl
  have hd1 : (3 : Int) - 1 = 2 := by norm_num
  have hd2 : ¬ ((2 : Int) = -1) := by norm_num
  rw [show 2 * (k' + 1) + 12 = (2 * k' + 13) + 1 from by ring]
  simp only [clean, clean_body, clean_traceback_types, hS, hLk0, hd1, hd2,
    chainLink, isTracebackType, hlim, hloop, hSfin, Bool.false_eq_true,
    if_false, ite_false, if_true, ite_true]



theorem linkDct_isTraceMock (L j : Nat) (v : Rep) :
    isTraceMockD (linkDct L j v) = true := rfl

/-- C3: for every straight trace chain of length `L` and every configured
    limit `k` with `1 ≤ k < L`, cleaning the chain head resolves exactly `k`
    trace nodes — the output arena holds exactly `k` mock dictionaries, all
    of them traceback mocks — and the `k`-th node's `tb_next` slot is
    explicitly set to `None` by the post-loop terminator write. -/
theorem c3_limit_bounds_chain (L k : Nat) (h1 : 1 ≤ k) (h2 : k < L) :
    clean (2 * k + 12) (mkChainCtx L k) st0 2 3 =
      .ok (.mock 0, chainFin L k) ∧
    (chainFin L k).arena.length = k ∧
    countTraceMocks (chainFin L k) = k ∧
    dctGet ((chainFin L k).arena.getD (k - 1) []) "tb_next" =
      some (.std .none) := by
  obtain ⟨k', rfl⟩ : ∃ k', k = k' + 1 := ⟨k - 1, by omega⟩
  refine ⟨clean_chain_run L (k' + 1) h1 h2, ?_, ?_, ?_⟩
  · simp [chainFin]
  · show ((chainFin L (k' + 1)).arena.countP (fun d => isTraceMockD d)) = k' + 1
    have hall : ∀ d ∈ (chainFin L (k' + 1)).arena, isTraceMockD d = true := by
      intro d hd
      simp only [chainFin, List.mem_append, List.mem_map, List.mem_range,
        List.mem_singleton] at hd
      rcases hd with ⟨j, _, rfl⟩ | rfl
      · exact linkDct_isTraceMock L j _
      · exact linkDct_isTraceMock L k' _
    rw [List.countP_eq_length.mpr hall]
    simp [chainFin]
  · show dctGet (((List.range k').map (fun j => linkDct L j (.mock (j + 1))) ++
        [linkDct L k' (.std .none)]).getD (k' + 1 - 1) []) "tb_next" =
        some (.std .none)
    rw [list_getD_at _ (linkDct L k' (.std .none)) [] _ (k' + 1 - 1) (by simp)]
    rfl

/-- Witness for C3 at a concrete input: a five-link chain with limit 3. -/
theorem c3_limit_bounds_chain_witness :
    clean (2 * 3 + 12) (mkChainCtx 5 3) st0 2 3 =
      .ok (.mock 0, chainFin 5 3) ∧
    (chainFin 5 3).arena.length = 3 ∧
    countTraceMocks (chainFin 5 3) = 3 ∧
    dctGet ((chainFin 5 3).arena.getD (3 - 1) []) "tb_next" =
      some (.std .none) :=
  c3_limit_bounds_chain 5 3 (by norm_num) (by norm_num)

end KeepTrace
